import Mathlib

/-!
Shallow embedding of the Cerberus PKI subsystem
(`src/services/flask-backend/app/services/pki.py`) and proofs about it.

Modelling conventions:
* X.509 names are ordered lists of `(OID, value)` attributes, matching
  `cryptography.x509.Name` equality (DER-encoding equality of the ordered
  attribute sequence).
* RSA keys are symbolic: a key pair is identified by a `keyId` drawn from a
  deterministic freshness supply that stands in for the CSPRNG, together with
  its bit size.  A signature is symbolic data `(signerKeyId, signedBytes)`;
  the 4-argument library verification `RSAPublicKey.verify` succeeds exactly
  when the signature was produced by the matching private key over exactly
  the presented bytes.
* The call made by `PKIService.verify_certificate` passes only three
  positional arguments to `RSAPublicKey.verify` (signature, data, padding),
  omitting the required `algorithm` parameter; in Python this raises
  `TypeError` at the call site before any cryptographic check runs.  That
  call shape is modelled by `RSAPublicKey.verify_three_args`, which always
  raises.
* Time is an abstract `Nat` measured in days (the unit used by
  `timedelta(days=...)`); `datetime.utcnow()` is the `now` field of the
  explicit `World` state.
* Byte strings are an inductive: a PEM-encoded certificate, a PEM-encoded
  private key, or garbage.  PEM serialisation/parsing is the evident
  injection/projection; SHA-256 over the DER encoding is modelled as a
  collision-free function of the certificate.
* The filesystem is the pair of files the service touches
  (`<ca_dir>/ca.crt`, `<ca_dir>/ca.key`), each an optional
  (content, permission-mode) entry.
-/

set_option autoImplicit false

namespace Cerberus

/-- Python exception classes that can escape the modelled library calls. -/
inductive PyExc where
  | valueError
  | typeError
  | indexError
  | fileNotFoundError
  | invalidSignature
  | attributeError
  deriving DecidableEq, Repr

/-- The X.509 name-attribute OIDs used by `pki.py` (`NameOID.*`). -/
inductive OID where
  | countryName
  | organizationName
  | commonName
  | emailAddress
  deriving DecidableEq, Repr

/-- One `x509.NameAttribute(oid, value)`. -/
structure NameAttribute where
  oid : OID
  value : String
  deriving DecidableEq, Repr

/-- An `x509.Name`: the ordered list of its attributes.  Library name
equality is DER equality, i.e. list equality here. -/
abbrev X509Name := List NameAttribute

/-- An RSA private key, symbolic: its identity and bit size. -/
structure RSAPrivateKey where
  keyId : Nat
  keySize : Nat
  deriving DecidableEq, Repr

/-- An RSA public key, symbolic: the identity of its key pair and bit size. -/
structure RSAPublicKey where
  keyId : Nat
  keySize : Nat
  deriving DecidableEq, Repr

/-- `private_key.public_key()`. -/
def RSAPrivateKey.public_key (k : RSAPrivateKey) : RSAPublicKey :=
  ⟨k.keyId, k.keySize⟩

/-- `x509.BasicConstraints(ca=..., path_length=...)`. -/
structure BasicConstraints where
  ca : Bool
  path_length : Option Nat
  deriving DecidableEq, Repr

/-- `x509.KeyUsage(...)` with its nine flags, in the constructor's order. -/
structure KeyUsage where
  digital_signature : Bool
  content_commitment : Bool
  key_encipherment : Bool
  data_encipherment : Bool
  key_agreement : Bool
  key_cert_sign : Bool
  crl_sign : Bool
  encipher_only : Bool
  decipher_only : Bool
  deriving DecidableEq, Repr

/-- Extended key usage OIDs used by `pki.py`. -/
inductive ExtendedKeyUsageOID where
  | serverAuth
  | clientAuth
  deriving DecidableEq, Repr

/-- General names appearing in SubjectAlternativeName (`x509.DNSName`). -/
inductive GeneralName where
  | dnsName (value : String)
  deriving DecidableEq, Repr

/-- The value of an X.509 extension, restricted to those `pki.py` builds or
reads. -/
inductive ExtensionValue where
  | basicConstraints (bc : BasicConstraints)
  | keyUsage (ku : KeyUsage)
  | subjectAlternativeName (names : List GeneralName)
  | extendedKeyUsage (usages : List ExtendedKeyUsageOID)
  deriving DecidableEq, Repr

/-- An extension together with its criticality flag, as added by
`CertificateBuilder.add_extension(value, critical=...)`. -/
structure Extension where
  value : ExtensionValue
  critical : Bool
  deriving DecidableEq, Repr

/-- The to-be-signed part of a certificate: everything the builder sets
before `.sign`. -/
structure TBSCertificate where
  subject : X509Name
  issuer : X509Name
  public_key : RSAPublicKey
  serial_number : Nat
  not_valid_before : Nat
  not_valid_after : Nat
  extensions : List Extension
  deriving DecidableEq, Repr

/-- Hash algorithms passed to `.sign` (only SHA-256 is used). -/
inductive HashAlgorithm where
  | sha256
  deriving DecidableEq, Repr

/-- A signed certificate: its TBS data plus the identity of the private key
that produced the signature and the hash used. -/
structure Certificate where
  tbs : TBSCertificate
  signerKeyId : Nat
  signatureHash : HashAlgorithm
  deriving DecidableEq, Repr

/-- Symbolic signature bytes: which key signed, and over which bytes. -/
structure SignatureBytes where
  signerKeyId : Nat
  signedData : TBSCertificate
  deriving DecidableEq, Repr

/-- `cert.signature`: the signature carried by a certificate always covers
that certificate's own TBS bytes. -/
def Certificate.signature (c : Certificate) : SignatureBytes :=
  ⟨c.signerKeyId, c.tbs⟩

/-- `cert.tbs_certificate_bytes`. -/
def Certificate.tbs_certificate_bytes (c : Certificate) : TBSCertificate :=
  c.tbs

/-- `cert.subject`. -/
def Certificate.subject (c : Certificate) : X509Name :=
  c.tbs.subject

/-- `cert.issuer`. -/
def Certificate.issuer (c : Certificate) : X509Name :=
  c.tbs.issuer

/-- `cert.public_key()`: the subject public key embedded in the TBS data. -/
def Certificate.public_key (c : Certificate) : RSAPublicKey :=
  c.tbs.public_key

/-- `cert.serial_number`. -/
def Certificate.serial_number (c : Certificate) : Nat :=
  c.tbs.serial_number

/-- `cert.not_valid_before`. -/
def Certificate.not_valid_before (c : Certificate) : Nat :=
  c.tbs.not_valid_before

/-- `cert.not_valid_after`. -/
def Certificate.not_valid_after (c : Certificate) : Nat :=
  c.tbs.not_valid_after

/-- `cert.extensions` as the bare list. -/
def Certificate.extensions (c : Certificate) : List Extension :=
  c.tbs.extensions

/-- Signature paddings (`cryptography.hazmat.primitives.asymmetric.padding`).
RSA certificates signed via `CertificateBuilder.sign(key, SHA256())` use
PKCS#1 v1.5. -/
inductive Padding where
  | pkcs1v15
  deriving DecidableEq, Repr

/-- `cert.signature_algorithm_parameters`: for an RSA/SHA-256 certificate
this is a `PKCS1v15` padding object. -/
def Certificate.signature_algorithm_parameters (_c : Certificate) : Padding :=
  .pkcs1v15

/-- The library method `RSAPublicKey.verify(signature, data, padding,
algorithm)` as specified by `cryptography`: raises `InvalidSignature` unless
the signature was produced over exactly `data` by the private key matching
this public key.  Note the method has four required parameters; `algorithm`
has no default. -/
def RSAPublicKey.verify (pk : RSAPublicKey) (sig : SignatureBytes)
    (data : TBSCertificate) (_pad : Padding) (_alg : HashAlgorithm) :
    Except PyExc Unit :=
  if sig.signerKeyId = pk.keyId ∧ sig.signedData = data then
    .ok ()
  else
    .error .invalidSignature

/-- The call shape used at `pki.py:330-334`:
`public_key().verify(cert.signature, cert.tbs_certificate_bytes,
cert.signature_algorithm_parameters)` — three positional arguments.  For an
RSA public key the method requires a fourth `algorithm` argument with no
default, so the Python call raises `TypeError` before any cryptographic
check is performed. -/
def RSAPublicKey.verify_three_args (_pk : RSAPublicKey) (_sig : SignatureBytes)
    (_data : TBSCertificate) (_pad : Padding) : Except PyExc Unit :=
  .error .typeError

/-- Byte strings exchanged with the modelled library: a PEM certificate, a
PEM private key, or arbitrary non-PEM bytes. -/
inductive Bytes where
  | certPEM (c : Certificate)
  | keyPEM (keyId : Nat) (keySize : Nat)
  | garbage (n : Nat)
  deriving DecidableEq, Repr

/-- `x509.load_pem_x509_certificate`: raises `ValueError` on anything that
is not a PEM certificate. -/
def load_pem_x509_certificate : Bytes → Except PyExc Certificate
  | .certPEM c => .ok c
  | _ => .error .valueError

/-- `serialization.load_pem_private_key(..., password=None)`: raises
`ValueError` on anything that is not a PEM private key. -/
def load_pem_private_key : Bytes → Except PyExc RSAPrivateKey
  | .keyPEM i s => .ok ⟨i, s⟩
  | _ => .error .valueError

/-- `cert.public_bytes(Encoding.PEM)`. -/
def Certificate.public_bytes_pem (c : Certificate) : Bytes :=
  .certPEM c

/-- `key.private_bytes(Encoding.PEM, TraditionalOpenSSL, NoEncryption())`. -/
def RSAPrivateKey.private_bytes_pem (k : RSAPrivateKey) : Bytes :=
  .keyPEM k.keyId k.keySize

/-- SHA-256 digests, modelled as collision-free over the (injective) DER
encoding: a digest is represented by the certificate it was computed from. -/
structure Sha256Digest where
  ofDER : Certificate
  deriving DecidableEq, Repr

/-- `hashlib.sha256(cert.public_bytes(Encoding.DER)).hexdigest()`. -/
def sha256_der_hexdigest (c : Certificate) : Sha256Digest :=
  ⟨c⟩

/-- `format(n, "x")`: lower-case hex rendering of a serial number. -/
def formatHex (n : Nat) : String :=
  String.mk (Nat.toDigits 16 n)

/-- An on-disk file: its contents and its permission mode bits. -/
structure FileEntry where
  content : Bytes
  mode : Nat
  deriving DecidableEq, Repr

/-- The two files the service touches: `<ca_dir>/ca.crt` and
`<ca_dir>/ca.key`.  `none` means the file does not exist. -/
structure FS where
  caCrt : Option FileEntry
  caKey : Option FileEntry
  deriving DecidableEq, Repr

/-- `open(path, "wb")` followed by a full write: an existing file keeps its
mode; a new file is created with the default creation mode (0o644 under the
usual umask). -/
def writeFile (old : Option FileEntry) (b : Bytes) : FileEntry :=
  match old with
  | some e => { e with content := b }
  | none => ⟨b, 0o644⟩

/-- `open(path, "rb")` followed by a full read: raises `FileNotFoundError`
when the file does not exist. -/
def openRead (f : Option FileEntry) : Except PyExc Bytes :=
  match f with
  | some e => .ok e.content
  | none => .error .fileNotFoundError

/-- The world outside the service object: the filesystem, the freshness
supply standing in for the CSPRNG (key identities and
`x509.random_serial_number()` draws), and the current UTC time in days. -/
structure World where
  fs : FS
  rng : Nat
  now : Nat
  deriving DecidableEq, Repr

/-- `rsa.generate_private_key(public_exponent=65537, key_size=...)`: a fresh
key pair from the randomness supply. -/
def rsa_generate_private_key (keySize : Nat) (w : World) :
    RSAPrivateKey × World :=
  (⟨w.rng, keySize⟩, { w with rng := w.rng + 1 })

/-- `x509.random_serial_number()`: a fresh draw from the randomness
supply. -/
def random_serial_number (w : World) : Nat × World :=
  (w.rng, { w with rng := w.rng + 1 })

/-- The `CertificateInfo` dataclass (`pki.py:16-27`). -/
structure CertificateInfo where
  subject_cn : String
  issuer_cn : String
  serial_number : String
  not_before : Nat
  not_after : Nat
  fingerprint_sha256 : Sha256Digest
  is_ca : Bool
  deriving DecidableEq, Repr

/-- The mutable fields of a `PKIService` instance (`pki.py:29-59`). -/
structure PKIService where
  ca_dir : String
  ca_cn : String
  ca_org : String
  ca_validity_days : Nat
  ca_cert : Option Certificate
  ca_key : Option RSAPrivateKey
  deriving DecidableEq, Repr

/-- `_save_ca` (`pki.py:140-157`): write the CA certificate PEM to
`ca.crt`, the unencrypted CA key PEM to `ca.key`, then
`os.chmod(ca_key_path, 0o600)`.  In the source both `self._ca_cert` and
`self._ca_key` are dereferenced; the method is only invoked from
`_create_ca`, immediately after both fields are assigned, so the
impossible `none` case (an `AttributeError` in Python) leaves the world
unchanged here. -/
def PKIService._save_ca (st : PKIService) (w : World) : World :=
  match st.ca_cert, st.ca_key with
  | some cert, some key =>
    let fs1 := { w.fs with caCrt := some (writeFile w.fs.caCrt cert.public_bytes_pem) }
    let fs2 := { fs1 with caKey := some (writeFile fs1.caKey key.private_bytes_pem) }
    let fs3 := { fs2 with caKey := fs2.caKey.map (fun e => { e with mode := 0o600 }) }
    { w with fs := fs3 }
  | _, _ => w

/-- The nine `KeyUsage` flags passed in `_create_ca` (`pki.py:120-133`):
only `key_cert_sign` and `crl_sign` set. -/
def caKeyUsage : KeyUsage :=
  ⟨false, false, false, false, false, true, true, false, false⟩

/-- `_create_ca` (`pki.py:92-138`): generate a 4096-bit RSA key, build the
self-signed CA certificate (subject = issuer = [C=US, O=ca_org, CN=ca_cn],
random serial, validity `[utcnow, utcnow + ca_validity_days]`, critical
BasicConstraints(ca=True, path_length=1), critical KeyUsage(keyCertSign,
crlSign)), sign it with the new key over SHA-256, store both in the
instance fields and persist via `_save_ca`. -/
def PKIService._create_ca (st : PKIService) (w : World) : PKIService × World :=
  let (key, w1) := rsa_generate_private_key 4096 w
  let subject : X509Name :=
    [⟨.countryName, "US"⟩, ⟨.organizationName, st.ca_org⟩, ⟨.commonName, st.ca_cn⟩]
  let (serial, w2) := random_serial_number w1
  let cert : Certificate :=
    { tbs :=
        { subject := subject
          issuer := subject
          public_key := key.public_key
          serial_number := serial
          not_valid_before := w2.now
          not_valid_after := w2.now + st.ca_validity_days
          extensions :=
            [⟨.basicConstraints ⟨true, some 1⟩, true⟩,
             ⟨.keyUsage caKeyUsage, true⟩] }
      signerKeyId := key.keyId
      signatureHash := .sha256 }
  let st1 := { st with ca_cert := some cert, ca_key := some key }
  (st1, PKIService._save_ca st1 w2)

/-- `open(ca_cert_path) + load_pem_x509_certificate` — the first two
statements of `_load_ca` (`pki.py:84-85`). -/
def readCaCrt (w : World) : Except PyExc Certificate :=
  match openRead w.fs.caCrt with
  | .error e => .error e
  | .ok b => load_pem_x509_certificate b

/-- `open(ca_key_path) + load_pem_private_key` — the last two statements of
`_load_ca` (`pki.py:87-90`). -/
def readCaKey (w : World) : Except PyExc RSAPrivateKey :=
  match openRead w.fs.caKey with
  | .error e => .error e
  | .ok b => load_pem_private_key b

/-- `_load_ca` (`pki.py:82-90`): read and parse `ca.crt`, assign
`self._ca_cert`, then read and parse `ca.key`, assign `self._ca_key`.  The
result carries the instance state reached when the method returned or the
exception was raised — in particular, a failure on the key file leaves the
already-assigned certificate field in place. -/
def PKIService._load_ca (st : PKIService) (w : World) :
    PKIService × Except PyExc Unit :=
  match readCaCrt w with
  | .error e => (st, .error e)
  | .ok cert =>
    let st1 := { st with ca_cert := some cert }
    match readCaKey w with
    | .error e => (st1, .error e)
    | .ok key => ({ st1 with ca_key := some key }, .ok ())

/-- `_load_or_create_ca` (`pki.py:71-80`): if both files exist, try
`_load_ca`, swallowing any exception; on failure (or missing files) fall
through to `_create_ca`. -/
def PKIService._load_or_create_ca (st : PKIService) (w : World) :
    PKIService × World :=
  if w.fs.caCrt.isSome ∧ w.fs.caKey.isSome then
    match PKIService._load_ca st w with
    | (st1, .ok ()) => (st1, w)
    | (st1, .error _) => PKIService._create_ca st1 w
  else
    PKIService._create_ca st w

/-- `__init__` (`pki.py:32-59`): record the configuration, start with both
CA fields unset, ensure the directory exists (no modelled effect), then
`_load_or_create_ca`. -/
def PKIService.init (ca_dir ca_cn ca_org : String) (ca_validity_days : Nat)
    (w : World) : PKIService × World :=
  let st : PKIService :=
    { ca_dir := ca_dir, ca_cn := ca_cn, ca_org := ca_org
      ca_validity_days := ca_validity_days, ca_cert := none, ca_key := none }
  PKIService._load_or_create_ca st w

/-- `PKIService(ca_dir)` with the Python default arguments
`ca_cn="Cerberus Root CA"`, `ca_org="Cerberus NGFW"`,
`ca_validity_days=3650`. -/
def PKIService.initWithDefaults (ca_dir : String) (w : World) :
    PKIService × World :=
  PKIService.init ca_dir "Cerberus Root CA" "Cerberus NGFW" 3650 w

/-- `get_ca_fingerprint` (`pki.py:163-168`): SHA-256 hex digest over the
DER encoding of the CA certificate (`AttributeError` if uninitialized). -/
def PKIService.get_ca_fingerprint (st : PKIService) :
    Except PyExc Sha256Digest :=
  match st.ca_cert with
  | some c => .ok (sha256_der_hexdigest c)
  | none => .error .attributeError

/-- The nine `KeyUsage` flags passed for leaf certificates
(`pki.py:217-230`, `pki.py:283-296`): only `digital_signature` and
`key_encipherment` set. -/
def leafKeyUsage : KeyUsage :=
  ⟨true, false, true, false, false, false, false, false, false⟩

/-- `generate_server_cert` (`pki.py:179-245`): generate a 2048-bit key,
subject `[CN=hostname]`, issuer `self._ca_cert.subject`, random serial,
validity `[utcnow, utcnow + validity_days]`, non-critical SAN
`[DNS:hostname]`, critical leaf KeyUsage, non-critical EKU `[serverAuth]`,
signed by `self._ca_key` over SHA-256; returns `(cert_pem, key_pem)`.
Accessing `self._ca_cert.subject` with an unset field raises
`AttributeError`. -/
def PKIService.generate_server_cert (st : PKIService) (hostname : String)
    (validity_days : Nat) (w : World) :
    Except PyExc ((Bytes × Bytes) × World) :=
  let (key, w1) := rsa_generate_private_key 2048 w
  let subject : X509Name := [⟨.commonName, hostname⟩]
  match st.ca_cert, st.ca_key with
  | some caCert, some caKey =>
    let (serial, w2) := random_serial_number w1
    let cert : Certificate :=
      { tbs :=
          { subject := subject
            issuer := caCert.subject
            public_key := key.public_key
            serial_number := serial
            not_valid_before := w2.now
            not_valid_after := w2.now + validity_days
            extensions :=
              [⟨.subjectAlternativeName [.dnsName hostname], false⟩,
               ⟨.keyUsage leafKeyUsage, true⟩,
               ⟨.extendedKeyUsage [.serverAuth], false⟩] }
        signerKeyId := caKey.keyId
        signatureHash := .sha256 }
    .ok ((cert.public_bytes_pem, key.private_bytes_pem), w2)
  | _, _ => .error .attributeError

/-- The subject attributes built by `generate_client_cert`
(`pki.py:268-273`): `[CN=common_name]`, plus an email attribute only when
`email` is truthy (`if email:` — `None` and the empty string are both
falsy in Python). -/
def client_subject_attrs (common_name : String) (email : Option String) :
    X509Name :=
  match email with
  | some e => if e ≠ "" then [⟨.commonName, common_name⟩, ⟨.emailAddress, e⟩]
              else [⟨.commonName, common_name⟩]
  | none => [⟨.commonName, common_name⟩]

/-- `generate_client_cert` (`pki.py:247-311`): like the server variant but
with subject `client_subject_attrs`, no SAN, and EKU `[clientAuth]`. -/
def PKIService.generate_client_cert (st : PKIService) (common_name : String)
    (email : Option String) (validity_days : Nat) (w : World) :
    Except PyExc ((Bytes × Bytes) × World) :=
  let (key, w1) := rsa_generate_private_key 2048 w
  let subject : X509Name := client_subject_attrs common_name email
  match st.ca_cert, st.ca_key with
  | some caCert, some caKey =>
    let (serial, w2) := random_serial_number w1
    let cert : Certificate :=
      { tbs :=
          { subject := subject
            issuer := caCert.subject
            public_key := key.public_key
            serial_number := serial
            not_valid_before := w2.now
            not_valid_after := w2.now + validity_days
            extensions :=
              [⟨.keyUsage leafKeyUsage, true⟩,
               ⟨.extendedKeyUsage [.clientAuth], false⟩] }
        signerKeyId := caKey.keyId
        signatureHash := .sha256 }
    .ok ((cert.public_bytes_pem, key.private_bytes_pem), w2)
  | _, _ => .error .attributeError

/-- The body of the `try` block of `verify_certificate` (`pki.py:322-341`):
parse the PEM, compare `cert.issuer` with `self._ca_cert.subject`, call the
signature check (with three positional arguments — see
`RSAPublicKey.verify_three_args`), then check the validity window against
`datetime.utcnow()`. -/
def PKIService.verify_certificate_body (st : PKIService) (now : Nat)
    (cert_pem : Bytes) : Except PyExc Bool :=
  match load_pem_x509_certificate cert_pem with
  | .error e => .error e
  | .ok cert =>
    match st.ca_cert with
    | none => .error .attributeError
    | some caCert =>
      if cert.issuer ≠ caCert.subject then
        .ok false
      else
        match caCert.public_key.verify_three_args cert.signature
            cert.tbs_certificate_bytes cert.signature_algorithm_parameters with
        | .error e => .error e
        | .ok () =>
          if now < cert.not_valid_before ∨ now > cert.not_valid_after then
            .ok false
          else
            .ok true

/-- `verify_certificate` (`pki.py:313-344`): the `try` body wrapped in
`except Exception: return False`. -/
def PKIService.verify_certificate (st : PKIService) (now : Nat)
    (cert_pem : Bytes) : Bool :=
  match PKIService.verify_certificate_body st now cert_pem with
  | .ok b => b
  | .error _ => false

/-- `cert.subject.get_attributes_for_oid(oid)` (order-preserving filter). -/
def get_attributes_for_oid (n : X509Name) (oid : OID) : List NameAttribute :=
  n.filter (fun a => a.oid = oid)

/-- `cert.extensions.get_extension_for_oid(BASIC_CONSTRAINTS)`, returning
`none` in place of raising `ExtensionNotFound`. -/
def find_basic_constraints : List Extension → Option BasicConstraints
  | [] => none
  | e :: rest =>
    match e.value with
    | .basicConstraints bc => some bc
    | _ => find_basic_constraints rest

/-- `_cert_to_info` (`pki.py:358-379`): the `is_ca` flag from Basic
Constraints (absent extension means `False`), then the projection.  Index
`[0]` on the empty attribute list — a subject or issuer without a CN —
raises `IndexError`. -/
def PKIService._cert_to_info (cert : Certificate) :
    Except PyExc CertificateInfo :=
  let is_ca :=
    match find_basic_constraints cert.extensions with
    | some bc => bc.ca
    | none => false
  match get_attributes_for_oid cert.subject .commonName with
  | [] => .error .indexError
  | sa :: _ =>
    match get_attributes_for_oid cert.issuer .commonName with
    | [] => .error .indexError
    | ia :: _ =>
      .ok { subject_cn := sa.value
            issuer_cn := ia.value
            serial_number := formatHex cert.serial_number
            not_before := cert.not_valid_before
            not_after := cert.not_valid_after
            fingerprint_sha256 := sha256_der_hexdigest cert
            is_ca := is_ca }

/-- `get_cert_info` (`pki.py:346-356`): parse then project. -/
def PKIService.get_cert_info (cert_pem : Bytes) :
    Except PyExc CertificateInfo :=
  match load_pem_x509_certificate cert_pem with
  | .error e => .error e
  | .ok cert => PKIService._cert_to_info cert

/-- `get_ca_info` (`pki.py:170-172`). -/
def PKIService.get_ca_info (st : PKIService) :
    Except PyExc CertificateInfo :=
  match st.ca_cert with
  | some c => PKIService._cert_to_info c
  | none => .error .attributeError

/-- `regenerate_ca` (`pki.py:174-177`): `_create_ca`, then the new CA's
info. -/
def PKIService.regenerate_ca (st : PKIService) (w : World) :
    (PKIService × World) × Except PyExc CertificateInfo :=
  let (st1, w1) := PKIService._create_ca st w
  ((st1, w1), PKIService.get_ca_info st1)

/-! Concrete states used by the closed theorems below. -/

/-- A world with no CA files on disk, freshness counter 0, time 100. -/
def startWorld : World := ⟨⟨none, none⟩, 0, 100⟩

/-- The service obtained by running `PKIService("/data/ca")` with default
arguments against `startWorld` (the create path, since no files exist). -/
def initialService : PKIService := (PKIService.initWithDefaults "/data/ca" startWorld).1

/-- The world after that initialization. -/
def initialWorld : World := (PKIService.initWithDefaults "/data/ca" startWorld).2

/-- The disjunction of failure modes named by the specification for
`verify_certificate`: the input fails to parse as a PEM certificate; or it
parses but its issuer name differs from the current CA subject; or its
signature was not produced by the current CA key; or the current time lies
outside its validity window. -/
def verifyFailureMode (st : PKIService) (now : Nat) (pem : Bytes) : Prop :=
  (∃ e, load_pem_x509_certificate pem = .error e) ∨
  (∃ c caCert, load_pem_x509_certificate pem = .ok c ∧ st.ca_cert = some caCert ∧
    Certificate.issuer c ≠ Certificate.subject caCert) ∨
  (∃ c caCert, load_pem_x509_certificate pem = .ok c ∧ st.ca_cert = some caCert ∧
    c.signerKeyId ≠ (Certificate.public_key caCert).keyId) ∨
  (∃ c, load_pem_x509_certificate pem = .ok c ∧ now < Certificate.not_valid_before c) ∨
  (∃ c, load_pem_x509_certificate pem = .ok c ∧ now > Certificate.not_valid_after c)

/-- A minimal self-signed certificate with the given key identity and
common name, used to populate concrete counterexample states. -/
def mkCert (id : Nat) (cn : String) : Certificate :=
  { tbs :=
      { subject := [⟨.commonName, cn⟩]
        issuer := [⟨.commonName, cn⟩]
        public_key := ⟨id, 2048⟩
        serial_number := id
        not_valid_before := 0
        not_valid_after := 10
        extensions := [] }
    signerKeyId := id
    signatureHash := .sha256 }

/-- A service holding an old CA in memory (key id 1). -/
def c4service : PKIService :=
  ⟨"/data/ca", "Cerberus Root CA", "Cerberus NGFW", 3650,
   some (mkCert 1 "old-ca"), some ⟨1, 4096⟩⟩

/-- A filesystem whose `ca.crt` holds a parsable certificate different from
the in-memory one, while `ca.key` holds unparsable bytes. -/
def c4worldState : World :=
  ⟨⟨some ⟨(mkCert 2 "new-ca").public_bytes_pem, 0o644⟩,
    some ⟨Bytes.garbage 7, 0o600⟩⟩, 9, 50⟩

/-- A syntactically valid certificate whose subject has a Common Name but
whose issuer name carries only an Organization attribute. -/
def c5cert : Certificate :=
  { tbs :=
      { subject := [⟨.commonName, "server.example.com"⟩]
        issuer := [⟨.organizationName, "No CN Org"⟩]
        public_key := ⟨3, 2048⟩
        serial_number := 12
        not_valid_before := 0
        not_valid_after := 10
        extensions := [] }
    signerKeyId := 3
    signatureHash := .sha256 }

/-! Theorems. -/

/-- Key lemma: `verify_certificate` returns `false` on every input, in
every state, at every time.  Tracing `pki.py:313-344`: a parse failure or
an unset CA field raises into the blanket `except`; an issuer mismatch
returns `False`; and on the remaining path the signature check invokes
`RSAPublicKey.verify` with three positional arguments where the RSA method
requires four, so `TypeError` is raised and caught, and the validity-window
check and the final `return True` are unreachable. -/
theorem verify_certificate_eq_false (st : PKIService) (now : Nat) (pem : Bytes) :
    PKIService.verify_certificate st now pem = false := by
  unfold PKIService.verify_certificate PKIService.verify_certificate_body
  cases pem with
  | certPEM c =>
    cases hca : st.ca_cert with
    | none => simp [load_pem_x509_certificate]
    | some caCert =>
      simp only [load_pem_x509_certificate]
      by_cases hi : c.issuer ≠ caCert.subject
      · simp [hi]
      · simp [hi, RSAPublicKey.verify_three_args]
  | keyPEM i s => simp [load_pem_x509_certificate]
  | garbage n => simp [load_pem_x509_certificate]

/-- C1: on a freshly initialized CA, `generate_server_cert("vpn.example.com",
365)` does return a certificate whose issuer name equals the current CA
subject name, but `verify_certificate` on that certificate's PEM,
immediately (at the very time of issuance), returns `false` — not `true` as
the claim states: the malformed three-argument signature-verification call
makes every verification collapse to `false`. -/
theorem c1_server_cert_issuer_matches_but_verify_returns_false :
    ∃ (cert : Certificate) (keyPem : Bytes) (w2 : World) (caCert : Certificate),
      PKIService.generate_server_cert initialService "vpn.example.com" 365 initialWorld
        = .ok ((cert.public_bytes_pem, keyPem), w2) ∧
      initialService.ca_cert = some caCert ∧
      cert.issuer = caCert.subject ∧
      PKIService.verify_certificate initialService w2.now cert.public_bytes_pem = false := by
  refine ⟨_, _, _, _, rfl, rfl, rfl, verify_certificate_eq_false _ _ _⟩

/-- C2: for every input byte string and every state and time, whenever the
input falls in one of the failure modes (non-PEM garbage, issuer mismatch,
signature not by the CA key, expired, not yet valid), `verify_certificate`
returns the boolean `false`; the blanket `except Exception` in the source
means no exception ever reaches the caller. -/
theorem c2_verify_returns_false_on_every_failure_mode (st : PKIService)
    (now : Nat) (pem : Bytes) (_h : verifyFailureMode st now pem) :
    PKIService.verify_certificate st now pem = false :=
  verify_certificate_eq_false st now pem

/-- Witness for C2 at a concrete input: garbage bytes fail to parse, and
verification returns `false`. -/
theorem c2_verify_failure_mode_witness :
    PKIService.verify_certificate initialService 100 (Bytes.garbage 0) = false :=
  c2_verify_returns_false_on_every_failure_mode initialService 100 (Bytes.garbage 0)
    (Or.inl ⟨PyExc.valueError, rfl⟩)

/-- C3: after `regenerate_ca`, `verify_certificate` on a certificate issued
by the previous CA returns `false` (the claim's first half), but on a
certificate issued by the new CA it also returns `false` — not `true` as
the claim's second half states: verification returns `false` on every
input because of the malformed signature-verification call. -/
theorem c3_verify_false_for_old_and_new_ca_after_regenerate :
    ∃ (cert1 : Certificate) (k1 : Bytes) (w2 : World) (st2 : PKIService) (w3 : World)
      (info : Except PyExc CertificateInfo) (cert2 : Certificate) (k2 : Bytes) (w4 : World),
      PKIService.generate_server_cert initialService "old.example.com" 365 initialWorld
        = .ok ((cert1.public_bytes_pem, k1), w2) ∧
      PKIService.regenerate_ca initialService w2 = ((st2, w3), info) ∧
      PKIService.generate_server_cert st2 "new.example.com" 365 w3
        = .ok ((cert2.public_bytes_pem, k2), w4) ∧
      PKIService.verify_certificate st2 w4.now cert1.public_bytes_pem = false ∧
      PKIService.verify_certificate st2 w4.now cert2.public_bytes_pem = false := by
  refine ⟨_, _, _, _, _, _, _, _, _, rfl, rfl, rfl,
    verify_certificate_eq_false _ _ _, verify_certificate_eq_false _ _ _⟩

/-- C4 counterexample: with a parsable `ca.crt` but an unparsable `ca.key`,
`_load_ca` fails, yet the in-memory certificate field has been overwritten
with the newly parsed certificate while the key field is unchanged — the
claimed absence of side effects is violated at this concrete input. -/
theorem c4_load_ca_mutates_cert_field_on_key_failure :
    (PKIService._load_ca c4service c4worldState).2 = .error .valueError ∧
    (PKIService._load_ca c4service c4worldState).1.ca_cert = some (mkCert 2 "new-ca") ∧
    (PKIService._load_ca c4service c4worldState).1.ca_cert ≠ c4service.ca_cert ∧
    (PKIService._load_ca c4service c4worldState).1.ca_key = c4service.ca_key := by
  refine ⟨rfl, rfl, by decide, rfl⟩

/-- C4 amended: `_load_ca` fails with an exception whenever either file is
missing or unparsable, and on every such failure the key field is exactly
as before the call; the certificate field is either unchanged or — when
the certificate file itself parsed before the failure — already overwritten
with the newly loaded certificate. -/
theorem c4_load_ca_fails_and_leaves_key_field_unchanged (st : PKIService) (w : World)
    (h : (∃ e, readCaCrt w = .error e) ∨ (∃ e, readCaKey w = .error e)) :
    (∃ st1 e, PKIService._load_ca st w = (st1, .error e)) ∧
    (∀ st1 e, PKIService._load_ca st w = (st1, .error e) →
      st1.ca_key = st.ca_key ∧
      (st1.ca_cert = st.ca_cert ∨
        ∃ c, readCaCrt w = .ok c ∧ st1.ca_cert = some c)) := by
  cases hc : readCaCrt w with
  | error e =>
    refine ⟨⟨st, e, by simp [PKIService._load_ca, hc]⟩, ?_⟩
    intro st1 e1 h1
    simp only [PKIService._load_ca, hc] at h1
    have ha : st = st1 := congrArg Prod.fst h1
    subst ha
    exact ⟨rfl, Or.inl rfl⟩
  | ok cert =>
    cases hk : readCaKey w with
    | error e =>
      refine ⟨⟨{ st with ca_cert := some cert }, e,
        by simp [PKIService._load_ca, hc, hk]⟩, ?_⟩
      intro st1 e1 h1
      simp only [PKIService._load_ca, hc, hk] at h1
      have ha : { st with ca_cert := some cert } = st1 := congrArg Prod.fst h1
      subst ha
      exact ⟨rfl, Or.inr ⟨cert, rfl, rfl⟩⟩
    | ok key =>
      exfalso
      rcases h with ⟨e, he⟩ | ⟨e, he⟩
      · rw [hc] at he; exact Except.noConfusion he
      · rw [hk] at he; exact Except.noConfusion he

/-- Witness for the amended C4 at a concrete input with a bad key file. -/
theorem c4_load_ca_failure_witness :
    ∃ st1 e, PKIService._load_ca c4service c4worldState = (st1, .error e) :=
  (c4_load_ca_fails_and_leaves_key_field_unchanged c4service c4worldState
    (Or.inr ⟨PyExc.valueError, rfl⟩)).1

/-- C5 counterexample: a valid certificate whose subject has a Common Name
but whose issuer lacks one makes `get_cert_info` fail with `IndexError`
rather than return a projection, contradicting the claim that every valid
certificate with a (subject) Common Name yields a `CertificateInfo`. -/
theorem c5_issuer_without_cn_raises_index_error :
    PKIService.get_cert_info c5cert.public_bytes_pem = .error .indexError ∧
    ∀ info, PKIService.get_cert_info c5cert.public_bytes_pem ≠ .ok info :=
  ⟨rfl, fun _ h => Except.noConfusion h⟩

/-- C5 amended: `get_cert_info` returns a projection exactly when the input
is a PEM certificate whose subject and issuer both carry a Common Name;
every failure is an exception (`ValueError` for a parse failure,
`IndexError` for a missing subject or issuer Common Name), never any other
behavior. -/
theorem c5_get_cert_info_characterization (pem : Bytes) :
    ((∃ info, PKIService.get_cert_info pem = .ok info) ↔
      ∃ c, pem = Bytes.certPEM c ∧
        get_attributes_for_oid (Certificate.subject c) .commonName ≠ [] ∧
        get_attributes_for_oid (Certificate.issuer c) .commonName ≠ []) ∧
    (∀ e, PKIService.get_cert_info pem = .error e →
      e = .valueError ∨ e = .indexError) := by
  cases pem with
  | certPEM c =>
    cases hs : get_attributes_for_oid (Certificate.subject c) .commonName with
    | nil =>
      constructor
      · constructor
        · rintro ⟨info, hinfo⟩
          simp [PKIService.get_cert_info, load_pem_x509_certificate,
                PKIService._cert_to_info, hs] at hinfo
        · rintro ⟨c', hc', hsub, hiss⟩
          injection hc' with h
          subst h
          exact absurd hs hsub
      · intro e he
        simp only [PKIService.get_cert_info, load_pem_x509_certificate,
                   PKIService._cert_to_info, hs] at he
        injection he with h
        exact Or.inr h.symm
    | cons a rest =>
      cases hi : get_attributes_for_oid (Certificate.issuer c) .commonName with
      | nil =>
        constructor
        · constructor
          · rintro ⟨info, hinfo⟩
            simp [PKIService.get_cert_info, load_pem_x509_certificate,
                  PKIService._cert_to_info, hs, hi] at hinfo
          · rintro ⟨c', hc', hsub, hiss⟩
            injection hc' with h
            subst h
            exact absurd hi hiss
        · intro e he
          simp only [PKIService.get_cert_info, load_pem_x509_certificate,
                     PKIService._cert_to_info, hs, hi] at he
          injection he with h
          exact Or.inr h.symm
      | cons b rest2 =>
        constructor
        · constructor
          · intro _
            exact ⟨c, rfl, by simp [hs], by simp [hi]⟩
          · intro _
            refine ⟨{ subject_cn := a.value, issuer_cn := b.value,
                      serial_number := formatHex (Certificate.serial_number c),
                      not_before := Certificate.not_valid_before c,
                      not_after := Certificate.not_valid_after c,
                      fingerprint_sha256 := sha256_der_hexdigest c,
                      is_ca := match find_basic_constraints (Certificate.extensions c) with
                               | some bc => bc.ca
                               | none => false }, ?_⟩
            simp only [PKIService.get_cert_info, load_pem_x509_certificate,
                       PKIService._cert_to_info, hs, hi]
        · intro e he
          simp only [PKIService.get_cert_info, load_pem_x509_certificate,
                     PKIService._cert_to_info, hs, hi] at he
          exact Except.noConfusion he
  | keyPEM i s =>
    constructor
    · constructor
      · rintro ⟨info, hinfo⟩
        simp [PKIService.get_cert_info, load_pem_x509_certificate] at hinfo
      · rintro ⟨c', hc', -, -⟩
        exact Bytes.noConfusion hc'
    · intro e he
      simp only [PKIService.get_cert_info, load_pem_x509_certificate] at he
      injection he with h
      exact Or.inl h.symm
  | garbage n =>
    constructor
    · constructor
      · rintro ⟨info, hinfo⟩
        simp [PKIService.get_cert_info, load_pem_x509_certificate] at hinfo
      · rintro ⟨c', hc', -, -⟩
        exact Bytes.noConfusion hc'
    · intro e he
      simp only [PKIService.get_cert_info, load_pem_x509_certificate] at he
      injection he with h
      exact Or.inl h.symm

/-- Witness for the amended C5: a certificate with Common Names in both
subject and issuer yields a projection. -/
theorem c5_get_cert_info_witness :
    ∃ info, PKIService.get_cert_info (mkCert 4 "cn-present").public_bytes_pem = .ok info :=
  (c5_get_cert_info_characterization (mkCert 4 "cn-present").public_bytes_pem).1.mpr
    ⟨mkCert 4 "cn-present", rfl, by decide, by decide⟩

/-- C6: every CA certificate produced by `_create_ca` is self-signed
(subject equals issuer, and the signing key is the certificate's own key
pair), has validity window `[now, now + ca_validity_days]` with the
constructor default being 3650 days, carries exactly a critical Basic
Constraints extension with `CA=true, path_length=1` and a critical Key
Usage extension asserting only `key_cert_sign` and `crl_sign`, and its key
is 4096-bit RSA. -/
theorem c6_create_ca_certificate_shape (st : PKIService) (w : World) :
    ∃ (c : Certificate) (k : RSAPrivateKey),
      (PKIService._create_ca st w).1.ca_cert = some c ∧
      (PKIService._create_ca st w).1.ca_key = some k ∧
      Certificate.subject c = Certificate.issuer c ∧
      c.signerKeyId = k.keyId ∧
      Certificate.public_key c = RSAPrivateKey.public_key k ∧
      Certificate.not_valid_before c = w.now ∧
      Certificate.not_valid_after c = w.now + st.ca_validity_days ∧
      Certificate.extensions c =
        [⟨.basicConstraints ⟨true, some 1⟩, true⟩, ⟨.keyUsage caKeyUsage, true⟩] ∧
      caKeyUsage = ⟨false, false, false, false, false, true, true, false, false⟩ ∧
      k.keySize = 4096 ∧
      (∀ dir rng now2,
        (PKIService.initWithDefaults dir ⟨⟨none, none⟩, rng, now2⟩).1.ca_validity_days
          = 3650) :=
  ⟨_, _, rfl, rfl, rfl, rfl, rfl, rfl, rfl, rfl, rfl, rfl, fun _ _ _ => rfl⟩

/-- C7: starting from an empty directory, `create` persists the CA, and a
second initialization (a process restart at any later time, with a fresh
randomness supply) takes the load path and reconstructs a CA whose SHA-256
fingerprint equals the one captured right after the create. -/
theorem c7_fingerprint_roundtrip_after_restart (dir cn org : String)
    (days rng now rng2 now2 : Nat) :
    PKIService.get_ca_fingerprint
        (PKIService.init dir cn org days
          { fs := (PKIService.init dir cn org days ⟨⟨none, none⟩, rng, now⟩).2.fs,
            rng := rng2, now := now2 }).1
      = PKIService.get_ca_fingerprint
          (PKIService.init dir cn org days ⟨⟨none, none⟩, rng, now⟩).1 := rfl

/-- C8: immediately after `_create_ca` (and hence after every
`regenerate_ca`), whatever the configured directory, prior filesystem
contents and prior file mode, the on-disk CA key file exists with
permission mode 0o600. -/
theorem c8_ca_key_file_mode_owner_only (st : PKIService) (w : World) :
    (∃ b, (PKIService._create_ca st w).2.fs.caKey = some ⟨b, 0o600⟩) ∧
    (∃ b, (PKIService.regenerate_ca st w).1.2.fs.caKey = some ⟨b, 0o600⟩) := by
  rcases w with ⟨⟨crt, key⟩, rng, now⟩
  cases key <;> exact ⟨⟨_, rfl⟩, ⟨_, rfl⟩⟩

/-- C9: calling `generate_client_cert` with `email` equal to the empty
string is indistinguishable from passing no email: the whole computation is
equal to the `None` call, and the built subject is exactly the single
Common Name attribute, with no email attribute. -/
theorem c9_empty_email_treated_as_absent (st : PKIService) (cn : String)
    (days : Nat) (w : World) :
    PKIService.generate_client_cert st cn (some "") days w
      = PKIService.generate_client_cert st cn none days w ∧
    client_subject_attrs cn (some "") = [⟨.commonName, cn⟩] ∧
    (client_subject_attrs cn (some "")).all (fun a => a.oid != OID.emailAddress) = true :=
  ⟨rfl, rfl, rfl⟩

/-- C10: every CA certificate built by `_create_ca` has subject
`[C=US, O=ca_org, CN=ca_cn]` — the Country Name attribute is hard-coded to
"US" whatever the configuration — and therefore the issuer name of every
server certificate the CA signs contains that `C=US` attribute as well. -/
theorem c10_country_name_us_hardcoded (st : PKIService) (w : World)
    (hostname : String) (days : Nat) :
    ∃ (c : Certificate),
      (PKIService._create_ca st w).1.ca_cert = some c ∧
      Certificate.subject c =
        [⟨.countryName, "US"⟩, ⟨.organizationName, st.ca_org⟩, ⟨.commonName, st.ca_cn⟩] ∧
      (⟨.countryName, "US"⟩ : NameAttribute) ∈ Certificate.subject c ∧
      ∃ (cert : Certificate) (kb : Bytes) (w2 : World),
        PKIService.generate_server_cert (PKIService._create_ca st w).1 hostname days
            (PKIService._create_ca st w).2
          = .ok ((cert.public_bytes_pem, kb), w2) ∧
        Certificate.issuer cert = Certificate.subject c ∧
        (⟨.countryName, "US"⟩ : NameAttribute) ∈ Certificate.issuer cert := by
  refine ⟨_, rfl, rfl, List.mem_cons_self _ _, _, _, _, rfl, rfl, List.mem_cons_self _ _⟩

end Cerberus
